import Mathlib

/-
Verification development for the wyreup-mcp tool execution engine.

Shallow embedding of:
  src/lib/execute.js        (executeTool, executeWithRetry, isRetryableError)
  src/lib/rateLimiter.js    (RateLimiter.isAllowed, RateLimiter.getStatus)
  src/lib/transformTool.js  (transformSimplifiedTool, getWebhookDescription)
  src/unnamed/part_005      (validateTool, validateManifest)

Embedding conventions:
  - JavaScript runtime values that the engine inspects are modelled by the
    inductive type Json below; a missing object field (undefined) is Option.none.
  - Wall-clock derived fields of results (timestamp strings, responseTime)
    are elided: no claim inspects them and real time is not representable.
  - I/O is modelled by oracles: the process environment is a function
    String to Option String, the secret store (loadSecretAuth) is a function
    from user and tool name to an optional auth object, and the network is a
    function from the attempt number to the outcome of that fetch call.
  - Observable side effects of executeTool (the HealthMonitor recordExecution
    calls, rate limiter state, sleeps between attempts, the number of fetch
    attempts, the outbound request) are returned in an ExecEffects record.
-/

/-- A JavaScript value as far as the engine inspects values. -/
inductive Json where
  | null
  | bool (b : Bool)
  | num (n : Int)
  | str (s : String)
  | arr (xs : List Json)
  | obj (fields : List (String × Json))

/-- JavaScript truthiness of a value. -/
def jsTruthy : Json → Bool
  | .null => false
  | .bool b => b
  | .num n => n != 0
  | .str s => s != ""
  | .arr _ => true
  | .obj _ => true

/-- Keys of a value as Object.keys returns them: field names for objects,
index strings for arrays and strings, empty otherwise. -/
def jsKeys : Json → List String
  | .obj fs => fs.map (fun p => p.1)
  | .arr xs => (List.range xs.length).map Nat.repr
  | .str s => (List.range s.length).map Nat.repr
  | _ => []

/-- String coercion as the template literals and String(v) produce it.
Array joining is elided (no claim inspects a coerced array). -/
def jsToString : Json → String
  | .null => "null"
  | .bool b => cond b "true" "false"
  | .num n => toString n
  | .str s => s
  | .arr _ => ""
  | .obj _ => "[object Object]"

mutual
/-- JSON.stringify, with string escaping elided (the produced text is only
carried inside error messages and request bodies that no claim inspects). -/
def jsonStringifyLite : Json → String
  | .null => "null"
  | .bool b => cond b "true" "false"
  | .num n => toString n
  | .str s => "\"" ++ s ++ "\""
  | .arr xs => "[" ++ jsonArrText xs ++ "]"
  | .obj fs => "\x7b" ++ jsonObjText fs ++ "\x7d"

def jsonArrText : List Json → String
  | [] => ""
  | [x] => jsonStringifyLite x
  | x :: xs => jsonStringifyLite x ++ "," ++ jsonArrText xs

def jsonObjText : List (String × Json) → String
  | [] => ""
  | [(k, v)] => "\"" ++ k ++ "\":" ++ jsonStringifyLite v
  | (k, v) :: fs => "\"" ++ k ++ "\":" ++ jsonStringifyLite v ++ "," ++ jsonObjText fs
end

/-- Whether the second character list is an initial segment of the first. -/
def startsWithList : List Char → List Char → Bool
  | _, [] => true
  | [], _ :: _ => false
  | c :: t, d :: u => c == d && startsWithList t u

/-- Whether the second character list occurs inside the first. -/
def containsSub : List Char → List Char → Bool
  | [], sub => sub.isEmpty
  | c :: t, sub => startsWithList (c :: t) sub || containsSub t sub

/-- Split at the first occurrence of the separator list, removing it. -/
def splitAtSub : List Char → List Char → Option (List Char × List Char)
  | [], sub => if sub.isEmpty then some ([], []) else none
  | c :: t, sub =>
    if startsWithList (c :: t) sub then some ([], (c :: t).drop sub.length)
    else match splitAtSub t sub with
         | some (pre, post) => some (c :: pre, post)
         | none => none

/-- Split a character list on every occurrence of one character. -/
def splitOnChar (c : Char) : List Char → List (List Char)
  | [] => [[]]
  | d :: t =>
    let r := splitOnChar c t
    if d == c then [] :: r
    else match r with
         | [] => [[d]]
         | h :: rt => (d :: h) :: rt

/-- String.toUpperCase. -/
def strToUpper (s : String) : String := String.mk (s.data.map Char.toUpper)

/-- String.toLowerCase. -/
def strToLower (s : String) : String := String.mk (s.data.map Char.toLower)

/-- String.trim: strip whitespace from both ends. -/
def strTrim (s : String) : String :=
  String.mk (((s.data.dropWhile Char.isWhitespace).reverse.dropWhile
    Char.isWhitespace).reverse)

/-- Array.join with a separator. -/
def strJoin (sep : String) : List String → String
  | [] => ""
  | [x] => x
  | x :: xs => x ++ sep ++ strJoin sep xs

/-- The includes test on strings: true when the second string occurs in the
first. -/
def jsIncludes (s sub : String) : Bool := containsSub s.data sub.data

/-- Truthiness of an optional string field (undefined and the empty string
are falsy). -/
def truthyOS : Option String → Bool
  | some s => s != ""
  | none => false

/-- Truthiness of an optional Json field (undefined is falsy). -/
def jOptTruthy : Option Json → Bool
  | some j => jsTruthy j
  | none => false

/- ===== rateLimiter.js ===== -/

namespace RateLimiter

/-- The per-tool rate limit configuration object. -/
structure RateLimitConfig where
  requests : Nat
  window : Nat
deriving DecidableEq, Repr

/-- The windows map of the RateLimiter: tool name to recorded timestamps. -/
abbrev RLState := List (String × List Int)

/-- Map.get on the windows map. -/
def mapGet : RLState → String → Option (List Int)
  | [], _ => none
  | (k0, v) :: t, k => if k0 = k then some v else mapGet t k

/-- Map.set on the windows map: replace in place or append. -/
def mapSet : RLState → String → List Int → RLState
  | [], k, v => [(k, v)]
  | (k0, v0) :: t, k, v => if k0 = k then (k, v) :: t else (k0, v0) :: mapSet t k v

/-- RateLimiter.isAllowed from src/lib/rateLimiter.js lines 19-63.
The config object itself is always truthy; a zero requests or window field is
falsy and disables limiting.  Returns the allow decision and the windows map
after the call. -/
def isAllowed (st : RLState) (toolName : String) (config : RateLimitConfig)
    (now : Int) : Bool × RLState :=
  if config.requests = 0 ∨ config.window = 0 then (true, st)
  else
    let windowStart : Int := now - (config.window : Int)
    let st1 := if (mapGet st toolName).isNone then mapSet st toolName [] else st
    let requests := (mapGet st1 toolName).getD []
    let validRequests := requests.filter (fun ts => decide (windowStart < ts))
    let st2 := mapSet st1 toolName validRequests
    if config.requests ≤ validRequests.length then (false, st2)
    else (true, mapSet st2 toolName (validRequests ++ [now]))

/-- The status object reported on a rate limit rejection. -/
structure RateStatus where
  requests : Nat
  limit : Nat
  resetTime : Option Int
deriving DecidableEq, Repr

/-- RateLimiter.getStatus from src/lib/rateLimiter.js lines 71-86 (the call
site always passes a present config object). -/
def getStatus (st : RLState) (toolName : String) (config : RateLimitConfig)
    (now : Int) : RateStatus :=
  match mapGet st toolName with
  | none => { requests := 0, limit := config.requests, resetTime := none }
  | some reqs =>
    let validRequests := reqs.filter (fun ts => decide (now - (config.window : Int) < ts))
    { requests := validRequests.length
      limit := config.requests
      resetTime := match validRequests with
        | [] => none
        | h :: _ => some (h + (config.window : Int)) }

theorem mapGet_mapSet (st : RLState) (k : String) (v : List Int) :
    mapGet (mapSet st k v) k = some v := by
  induction st with
  | nil => simp [mapGet, mapSet]
  | cons h t ih =>
    by_cases hk : h.1 = k
    · simp [mapGet, mapSet, hk]
    · simp [mapGet, mapSet, hk, ih]

theorem mapSet_mapSet (st : RLState) (k : String) (v w : List Int) :
    mapSet (mapSet st k v) k w = mapSet st k w := by
  induction st with
  | nil => simp [mapSet]
  | cons h t ih =>
    by_cases hk : h.1 = k
    · simp [mapSet, hk]
    · simp [mapSet, hk, ih]

end RateLimiter

/- ===== URL handling (the WHATWG URL uses in execute.js and transformTool.js) =====
A simplified parser: scheme://host[/path][?query].  It agrees with the
JavaScript URL constructor on the concrete inputs appearing in this file
(well-formed http(s) URLs parse, strings without a scheme separator throw). -/

/-- Parsed URL. -/
structure URLM where
  scheme : String
  host : String
  pathname : String
  query : List (String × String)
deriving DecidableEq, Repr

/-- Parse a query string into key-value pairs (key before the first equals
sign, value everything after it). -/
def parseQuery (qs : List Char) : List (String × String) :=
  if qs.isEmpty then []
  else (splitOnChar '&' qs).map (fun p =>
    let k := p.takeWhile (fun c => c ≠ '=')
    (String.mk k, String.mk (p.drop (k.length + 1))))

/-- The URL constructor: some on success, none where the JavaScript
constructor would throw a TypeError.  The scheme ends at the first scheme
separator; the host runs to the first slash; the query starts at the first
question mark. -/
def parseURL (s : String) : Option URLM :=
  match splitAtSub s.data ("://".data) with
  | none => none
  | some (schemeL, restL) =>
    if schemeL.isEmpty ∨ restL.isEmpty then none
    else
      let baseL := restL.takeWhile (fun c => c ≠ '?')
      let queryL := restL.drop (baseL.length + 1)
      let hostL := baseL.takeWhile (fun c => c ≠ '/')
      let pathL := baseL.drop hostL.length
      if hostL.isEmpty then none
      else some { scheme := String.mk schemeL, host := String.mk hostL
                  pathname := if pathL.isEmpty then "/" else String.mk pathL
                  query := parseQuery queryL }

/-- searchParams.set: replace the value of an existing key or append. -/
def setParam : List (String × String) → String → String → List (String × String)
  | [], k, v => [(k, v)]
  | (k0, v0) :: t, k, v => if k0 = k then (k, v) :: t else (k0, v0) :: setParam t k v

/-- URL.toString (percent-encoding elided; no claim inspects the text). -/
def urlToString (u : URLM) : String :=
  u.scheme ++ "://" ++ u.host ++ u.pathname ++
    (match u.query with
     | [] => ""
     | q => "?" ++ strJoin "&" (q.map (fun p => p.1 ++ "=" ++ p.2)))

/-- Object.entries of the payload as the GET branch iterates it (objects give
their fields; strings and arrays enumerate indexed elements). -/
def jsEntries : Json → List (String × Json)
  | .obj fs => fs
  | .arr xs => xs.enum.map (fun p => (Nat.repr p.1, p.2))
  | .str s => s.data.enum.map (fun p => (Nat.repr p.1, .str (String.singleton p.2)))
  | _ => []

/-- The GET branch of execute.js lines 132-136: set each payload entry as a
query parameter, coercing values to strings. -/
def applyQueryParams (u : URLM) (payload : Json) : URLM :=
  (jsEntries payload).foldl
    (fun acc kv => { acc with query := setParam acc.query kv.1 (jsToString kv.2) }) u

/- ===== headers ===== -/

/-- A header map, in insertion order (JavaScript object key order). -/
abbrev Headers := List (String × String)

/-- The state of one call: the object the caller passed in and the object the
callee works on.  The source copies originalHeaders with an object spread and
then mutates only the copy; onCur encodes a statement whose target is the
copy. -/
structure CallState (α : Type) where
  orig : α
  cur : α

/-- Apply a mutation to the working copy. -/
def onCur {α : Type} (f : α → α) (s : CallState α) : CallState α :=
  { s with cur := f s.cur }

/-- deleteHeaderCaseInsensitive from execute.js lines 67-74: remove every
key matching case-insensitively. -/
def deleteHeaderCaseInsensitive (key : String) (hs : Headers) : Headers :=
  hs.filter (fun p => strToLower p.1 != strToLower key)

/-- The Content-Type removal of execute.js lines 111-116: find the first key
matching case-insensitively and delete that key. -/
def deleteFirstCI (key : String) : Headers → Headers
  | [] => []
  | (k0, v) :: t => if strToLower k0 = strToLower key then t else (k0, v) :: deleteFirstCI key t

/-- Property assignment finalHeaders[k] = v: overwrite in place or append. -/
def setHeader (k v : String) (hs : Headers) : Headers :=
  if hs.any (fun p => p.1 == k) then hs.map (fun p => if p.1 == k then (k, v) else p)
  else hs ++ [(k, v)]

/- ===== tool configuration and auth ===== -/

/-- An auth object (from the manifest or the secret store). -/
structure Auth where
  type : String := ""
  name : Option String := none
  value : Option String := none
  valueFromEnv : Option String := none
  token : Option String := none
  tokenFromEnv : Option String := none
deriving DecidableEq, Repr

/-- The authFrom indirection object. -/
structure AuthFrom where
  user : String
deriving DecidableEq, Repr

/-- The tool configuration fields executeTool reads. -/
structure ToolConfig where
  name : String
  url : String
  method : Option String := none
  auth : Option Auth := none
  authFrom : Option AuthFrom := none
  rateLimit : Option RateLimiter.RateLimitConfig := none
  timeout : Option Nat := none
  maxRetries : Option Nat := none
  retryDelay : Option Nat := none
deriving Repr

/-- The numeric default operator x || d: zero and a missing field fall back
to the default. -/
def jsOrNat (v : Option Nat) (d : Nat) : Nat :=
  match v with
  | some n => if n = 0 then d else n
  | none => d

/-- toolConfig.timeout || 30000 (execute.js line 279). -/
def effectiveTimeout (t : ToolConfig) : Nat := jsOrNat t.timeout 30000

/-- toolConfig.maxRetries || 3 (execute.js line 280). -/
def effectiveMaxRetries (t : ToolConfig) : Nat := jsOrNat t.maxRetries 3

/-- toolConfig.retryDelay || 1000 (execute.js line 281). -/
def effectiveRetryDelay (t : ToolConfig) : Nat := jsOrNat t.retryDelay 1000

/-- toolConfig.method?.toUpperCase() || POST (execute.js line 100). -/
def resolvedMethod (t : ToolConfig) : String :=
  match t.method with
  | some m => if strToUpper m = "" then "POST" else strToUpper m
  | none => "POST"

/-- The external auth override of execute.js lines 76-89: when authFrom, its
user and the tool name are truthy and the secret store has an entry for
(user, toolName), that entry replaces the manifest auth. -/
def resolveAuth (tool : ToolConfig) (secrets : String → String → Option Auth) : Option Auth :=
  match tool.authFrom with
  | some af =>
    if af.user ≠ "" ∧ tool.name ≠ "" then
      match secrets af.user tool.name with
      | some a => some a
      | none => tool.auth
    else tool.auth
  | none => tool.auth

/-- Resolution of an env-var override with fallback to the literal value
(execute.js lines 158-181 for header auth, 208-231 for jwt). -/
def resolveEnvValue (base : Option String) (fromEnv : Option String)
    (env : String → Option String) : Option String :=
  match fromEnv with
  | some ev =>
    if ev ≠ "" then
      match env ev with
      | some v => if v ≠ "" then some v else base
      | none => base
    else base
  | none => base

/-- typeof payload is object and not null (execute.js line 108). -/
def isObjectPayload : Json → Bool
  | .obj _ => true
  | .arr _ => true
  | _ => false

/-- The header manipulation statements of executeTool in source order, each a
mutation of the finalHeaders copy:
 lines 91-98   pre-strip the header that auth will control;
 lines 111-119 Content-Type and Accept forcing for object bodies;
 lines 148-258 auth header injection;
 lines 260-263 strip Host, Content-Length, User-Agent. -/
def headerOps (auth : Option Auth) (method : String) (payload : Json)
    (env : String → Option String) : List (Headers → Headers) :=
  (match auth with
   | some a =>
     (if a.type == "header" && truthyOS a.name
      then [deleteHeaderCaseInsensitive (a.name.getD "")] else [])
     ++ (if a.type == "jwt" then [deleteHeaderCaseInsensitive "Authorization"] else [])
   | none => [])
  ++ (if (method == "POST" || method == "PUT" || method == "PATCH")
         && isObjectPayload payload then
        [deleteFirstCI "Content-Type", setHeader "Content-Type" "application/json",
         deleteHeaderCaseInsensitive "Accept", setHeader "Accept" "application/json"]
      else [])
  ++ (match auth with
      | some a =>
        if a.type == "header" then
          if truthyOS a.name then
            match resolveEnvValue a.value a.valueFromEnv env with
            | some v => [setHeader (a.name.getD "") v]
            | none => []
          else []
        else if a.type == "jwt" then
          match resolveEnvValue a.token a.tokenFromEnv env with
          | some t => if t ≠ "" then [setHeader "Authorization" ("Bearer " ++ t)] else []
          | none => []
        else []
      | none => [])
  ++ [deleteHeaderCaseInsensitive "Host", deleteHeaderCaseInsensitive "Content-Length",
      deleteHeaderCaseInsensitive "User-Agent"]

/-- Run the header statements; the working copy starts as the spread copy of
originalHeaders (execute.js line 63), so every statement targets the copy. -/
def buildHeaderState (auth : Option Auth) (method : String) (payload : Json)
    (env : String → Option String) (s : CallState Headers) : CallState Headers :=
  (headerOps auth method payload env).foldl (fun st f => onCur f st) s

theorem foldl_onCur_orig {α : Type} (l : List (α → α)) (s : CallState α) :
    (l.foldl (fun st f => onCur f st) s).orig = s.orig := by
  induction l generalizing s with
  | nil => rfl
  | cons f t ih => simpa [onCur] using ih (onCur f s)

theorem buildHeaderState_orig (auth : Option Auth) (method : String) (payload : Json)
    (env : String → Option String) (s : CallState Headers) :
    (buildHeaderState auth method payload env s).orig = s.orig :=
  foldl_onCur_orig _ s

/- ===== execute.js: retry loop and result classification ===== -/

/-- A JavaScript error as the engine inspects it.  responseStatus models the
error.response.status field read by isRetryableError (an axios-style field
that the undici fetch in use never sets on thrown errors). -/
structure JsError where
  name : String := "Error"
  message : String := ""
  code : Option String := none
  responseStatus : Option Nat := none
deriving DecidableEq, Repr

/-- An HTTP response as the engine inspects it.  jsonBody is the result of
response.json() (none when that parse would reject); textBody likewise for
response.text(); hasBody is the truthiness of response.body. -/
structure HttpResp where
  status : Nat
  statusText : String := ""
  contentType : Option String := none
  jsonBody : Option Json := none
  textBody : Option String := none
  hasBody : Bool := true

/-- The outcome the network oracle assigns to one fetch attempt. -/
inductive FetchOutcome where
  | err (e : JsError)
  | resp (r : HttpResp)

/-- isRetryableError from execute.js lines 319-327. -/
def isRetryableError (e : JsError) : Bool :=
  e.name == "AbortError" || e.code == some "ECONNRESET" ||
  e.code == some "ENOTFOUND" || e.code == some "ETIMEDOUT" ||
  (match e.responseStatus with
   | some s => decide (500 ≤ s)
   | none => false)

/-- What one run of the retry loop did: the settled result, the number of
fetch attempts performed, and the backoff sleeps in order. -/
structure RetryTrace where
  result : Except JsError HttpResp
  attempts : Nat
  sleeps : List Nat

/-- executeWithRetry from execute.js lines 284-316, with the recursion fueled
(fuel only runs out below maxRetries - attempt, which the top-level call never
reaches, so the behaviour matches the source).  A resolved fetch returns
immediately; a rejected fetch retries after retryDelay * 2 ^ (attempt - 1)
milliseconds while attempt < maxRetries and the error is retryable. -/
def runRetry (net : Nat → FetchOutcome) (maxRetries retryDelay : Nat) :
    Nat → Nat → RetryTrace
  | attempt, fuel =>
    match net attempt with
    | .resp r => { result := .ok r, attempts := attempt, sleeps := [] }
    | .err e =>
      if attempt < maxRetries && isRetryableError e then
        match fuel with
        | 0 => { result := .error e, attempts := attempt, sleeps := [] }
        | fuel' + 1 =>
          let delay := retryDelay * 2 ^ (attempt - 1)
          let t := runRetry net maxRetries retryDelay (attempt + 1) fuel'
          { result := t.result, attempts := t.attempts, sleeps := delay :: t.sleeps }
      else { result := .error e, attempts := attempt, sleeps := [] }

/-- The top-level executeWithRetry() call (attempt starts at 1). -/
def executeWithRetry (net : Nat → FetchOutcome) (maxRetries retryDelay : Nat) :
    RetryTrace :=
  runRetry net maxRetries retryDelay 1 maxRetries

/-- The ExecutionResult object.  Fields absent from a given return site are
none; timestamp and responseTime are elided (wall clock). -/
structure ExecResult where
  success : Bool
  error : Option String := none
  status : Option Nat := none
  details : Option Json := none
  tool : Option String := none
  data : Option Json := none
  errorType : Option String := none
  stream : Bool := false
  contentType : Option String := none
  rateLimit : Option RateLimiter.RateStatus := none

/-- The log of HealthMonitor.recordExecution calls, in order. -/
abbrev HealthLog := List (String × ExecResult)

/-- Error body parsing for a non-2xx response (execute.js lines 334-343):
response.json(), falling back to response.text(), falling back to a fixed
placeholder. -/
def errorBodyOf (resp : HttpResp) : Json :=
  match resp.jsonBody with
  | some j => j
  | none =>
    match resp.textBody with
    | some t => .str t
    | none => .str "Could not parse error response body."

/-- response.ok: status in the 2xx range. -/
def respOk (r : HttpResp) : Bool := 200 ≤ r.status && r.status ≤ 299

/-- The streaming content-type test of execute.js lines 372-377. -/
def streamContentType (ct : Option String) : Bool :=
  match ct with
  | some c => jsIncludes c "text/event-stream" || jsIncludes c "application/x-ndjson" ||
              jsIncludes c "text/plain; charset=utf-8"
  | none => false

/-- The try block body after executeWithRetry resolves, plus the catch block
(execute.js lines 329-465).  Returns the ExecutionResult and the health log
after the call; the source records the result via
healthMonitor.recordExecution only on the parsed 2xx path (line 426) and in
the catch block (line 462). -/
def settleResponse (toolName : String) (log : HealthLog) (trace : RetryTrace) :
    ExecResult × HealthLog :=
  match trace.result with
  | .error e =>
    let r : ExecResult :=
      { success := false, error := some e.message
        status := some (if e.name = "AbortError" then 408 else 500)
        tool := some toolName, errorType := some e.name, data := some .null }
    (r, log ++ [(toolName, r)])
  | .ok resp =>
    if respOk resp = false then
      let r : ExecResult :=
        { success := false
          error := some ("HTTP " ++ Nat.repr resp.status ++ ": " ++ resp.statusText)
          status := some resp.status, details := some (errorBodyOf resp)
          tool := some toolName }
      (r, log)
    else if streamContentType resp.contentType && resp.hasBody then
      let r : ExecResult :=
        { success := true, stream := true, status := some resp.status
          contentType := resp.contentType }
      (r, log)
    else
      let parsed : Except JsError Json :=
        if (match resp.contentType with
            | some c => jsIncludes c "application/json"
            | none => false) then
          match resp.jsonBody with
          | some j => .ok j
          | none => .error { name := "SyntaxError", message := "Unexpected end of JSON input" }
        else
          match resp.textBody with
          | some t => .ok (.str t)
          | none => .error { name := "TypeError", message := "Failed to read response body" }
      match parsed with
      | .error e =>
        let r : ExecResult :=
          { success := false, error := some e.message
            status := some (if e.name = "AbortError" then 408 else 500)
            tool := some toolName, errorType := some e.name, data := some .null }
        (r, log ++ [(toolName, r)])
      | .ok d =>
        let r : ExecResult :=
          { success := true, data := some d, status := some resp.status
            tool := some toolName }
        (r, log ++ [(toolName, r)])

/-- How executeTool finished: a returned ExecutionResult, or an exception
escaping the function. -/
inductive ExecOutcome where
  | ret (r : ExecResult)
  | thrown (e : JsError)

/-- Whether the call ended in an escaped exception. -/
def ExecOutcome.isThrown : ExecOutcome → Bool
  | .thrown _ => true
  | .ret _ => false

/-- Everything observable about one executeTool call. -/
structure ExecEffects where
  outcome : ExecOutcome
  rlState : RateLimiter.RLState
  healthLog : HealthLog
  attempts : Nat
  sleeps : List Nat
  requestUrl : Option String
  sentHeaders : Option Headers
  sentBody : Option Json
  originalHeadersAfter : Headers
  timeoutMs : Nat

/-- The body of executeTool after rate limit admission (execute.js lines
63-465).  The URL constructor call in the GET branch (line 132) sits outside
the try block, so its TypeError escapes the function; every other failure is
caught and settled by settleResponse. -/
def executeCore (tool : ToolConfig) (payload : Json) (originalHeaders : Headers)
    (env : String → Option String) (secrets : String → String → Option Auth)
    (net : Nat → FetchOutcome) (rl : RateLimiter.RLState) (log : HealthLog) :
    ExecEffects :=
  let auth := resolveAuth tool secrets
  let method := resolvedMethod tool
  let hs := buildHeaderState auth method payload env
    { orig := originalHeaders, cur := originalHeaders }
  let bodyToSend : Option Json :=
    if method == "POST" || method == "PUT" || method == "PATCH" then
      if isObjectPayload payload then some (.str (jsonStringifyLite payload))
      else some payload
    else none
  let urlExc : Except JsError String :=
    if method == "GET" && jsTruthy payload && decide (0 < (jsKeys payload).length) then
      match parseURL tool.url with
      | none => .error { name := "TypeError", message := "Invalid URL"
                         code := some "ERR_INVALID_URL" }
      | some u => .ok (urlToString (applyQueryParams u payload))
    else .ok tool.url
  match urlExc with
  | .error e =>
    { outcome := .thrown e, rlState := rl, healthLog := log, attempts := 0
      sleeps := [], requestUrl := none, sentHeaders := none, sentBody := none
      originalHeadersAfter := hs.orig, timeoutMs := effectiveTimeout tool }
  | .ok target =>
    let trace := executeWithRetry net (effectiveMaxRetries tool) (effectiveRetryDelay tool)
    let sr := settleResponse tool.name log trace
    { outcome := .ret sr.1, rlState := rl, healthLog := sr.2
      attempts := trace.attempts, sleeps := trace.sleeps
      requestUrl := some target, sentHeaders := some hs.cur, sentBody := bodyToSend
      originalHeadersAfter := hs.orig, timeoutMs := effectiveTimeout tool }

/-- executeTool from execute.js lines 27-466: rate limit admission first
(lines 48-61; the rejection returns a 429 result without recording it), then
the core. -/
def executeTool (tool : ToolConfig) (payload : Json) (originalHeaders : Headers)
    (env : String → Option String) (secrets : String → String → Option Auth)
    (now : Int) (net : Nat → FetchOutcome) (rl : RateLimiter.RLState)
    (log : HealthLog) : ExecEffects :=
  match tool.rateLimit with
  | some cfg =>
    let res := RateLimiter.isAllowed rl tool.name cfg now
    if res.1 then executeCore tool payload originalHeaders env secrets net res.2 log
    else
      let st := RateLimiter.getStatus res.2 tool.name cfg now
      let r : ExecResult :=
        { success := false
          error := some ("Rate limit exceeded: " ++ Nat.repr st.requests ++ "/" ++
                         Nat.repr st.limit ++ " requests")
          status := some 429, tool := some tool.name, rateLimit := some st }
      { outcome := .ret r, rlState := res.2, healthLog := log, attempts := 0
        sleeps := [], requestUrl := none, sentHeaders := none, sentBody := none
        originalHeadersAfter := originalHeaders, timeoutMs := effectiveTimeout tool }
  | none => executeCore tool payload originalHeaders env secrets net rl log

/- ===== transformTool.js ===== -/

/-- Uppercase each word-start character, the replace of every regex word-class
match at a word boundary in getWebhookDescription. -/
def capWordsAux : Bool → List Char → List Char
  | _, [] => []
  | prevWord, c :: t =>
    let isW := c.isAlphanum || c == '_'
    (if isW && !prevWord then c.toUpper else c) :: capWordsAux isW t

/-- String.replace of word-boundary word characters with their uppercase. -/
def capitalizeWordStarts (s : String) : String := String.mk (capWordsAux false s.data)

/-- String.replace of every dash or underscore with a space. -/
def replaceDashUnderscore (s : String) : String :=
  String.mk (s.data.map (fun c => if c = '-' || c = '_' then ' ' else c))

/-- getWebhookDescription from transformTool.js lines 73-94. -/
def getWebhookDescription (webhookUrl : String) : String :=
  match parseURL webhookUrl with
  | none => "webhook"
  | some u =>
    let pathSegments := ((splitOnChar '/' u.pathname.data).map String.mk).filter
      (fun seg => 0 < seg.length)
    match pathSegments.getLast? with
    | some lastSegment =>
      capitalizeWordStarts (replaceDashUnderscore lastSegment) ++ " webhook"
    | none => u.host ++ " webhook"

/-- A tool entry as transformSimplifiedTool reads it.  String-valued fields
are modelled as optional strings (absent is undefined); the input and output
schemas and the public flag as optional Json values. -/
structure TTool where
  name : Option String := none
  description : Option String := none
  url : Option String := none
  webhook : Option String := none
  method : Option String := none
  input : Option Json := none
  output : Option Json := none
  publicFlag : Option Json := none

/-- The default input schema set by transformTool.js lines 36-41. -/
def defaultInputSchema : Json := .obj [("type", .str "object"), ("properties", .obj [])]

/-- The default output schema set by transformTool.js lines 43-54. -/
def defaultOutputSchema : Json :=
  .obj [("type", .str "object"),
        ("properties", .obj [("result", .obj [("type", .str "string"),
                                              ("description", .str "Response from webhook")])])]

/-- The statements of the simplified-webhook branch (transformTool.js lines
18-61), each a mutation of the transformed spread copy; conditions that read
the copy do so through the current value, and the description is derived from
the original webhook field as in the source. -/
def webhookTransformOps (tool : TTool) : List (TTool → TTool) :=
  [fun t => { t with url := tool.webhook, webhook := none },
   fun t => if !(truthyOS t.description) then
              { t with description := some ("Forward to " ++
                  getWebhookDescription (tool.webhook.getD "")) }
            else t,
   fun t => if !(truthyOS t.method) then { t with method := some "POST" } else t,
   fun t => if !(jOptTruthy t.input) then { t with input := some defaultInputSchema } else t,
   fun t => if !(jOptTruthy t.output) then { t with output := some defaultOutputSchema } else t,
   fun t => if t.publicFlag.isNone then { t with publicFlag := some (.bool false) } else t]

/-- The webhook branch run against the spread copy of the entry
(transformTool.js line 19). -/
def transformCall (tool : TTool) : CallState TTool :=
  (webhookTransformOps tool).foldl (fun st f => onCur f st) { orig := tool, cur := tool }

/-- transformSimplifiedTool from transformTool.js lines 11-66. -/
def transformSimplifiedTool (tool : TTool) : TTool :=
  if truthyOS tool.description && truthyOS tool.url && jOptTruthy tool.input &&
     jOptTruthy tool.output then tool
  else if truthyOS tool.webhook && !(truthyOS tool.url) then (transformCall tool).cur
  else tool

/- ===== part_005: validateTool / validateManifest ===== -/

/-- A manifest tool entry as a JavaScript object: its field list.  Property
access tool.k is jget, so an absent field is none (undefined). -/
abbrev JTool := List (String × Json)

/-- Property access on an object (first binding wins). -/
def jget : JTool → String → Option Json
  | [], _ => none
  | (k0, v) :: t, k => if k0 = k then some v else jget t k

/-- typeof v === string for an optional field. -/
def jisStr : Option Json → Bool
  | some (.str _) => true
  | _ => false

/-- The string content of a field known to be a string (dummy otherwise;
only read behind a jisStr guard, mirroring the short-circuit in the source). -/
def jstrOf : Option Json → String
  | some (.str s) => s
  | _ => ""

/-- JSON.stringify applied to a possibly missing value (undefined prints as
the word undefined, as the template literal renders it). -/
def jsonStringifyU : Option Json → String
  | none => "undefined"
  | some j => jsonStringifyLite j

/-- The tool.name || unknown fallback used in the validation messages. -/
def displayName (tool : JTool) : String :=
  match jget tool "name" with
  | some j => if jsTruthy j then jsToString j else "unknown"
  | none => "unknown"

/-- VALID_METHODS from part_005 line 5. -/
def VALID_METHODS : List String := ["GET", "POST", "PUT", "PATCH", "DELETE"]

/-- VALID_AUTH_TYPES from part_005 line 6. -/
def VALID_AUTH_TYPES : List String := ["header", "jwt"]

/-- The non-empty-string test pattern !v || typeof v !== string || !v.trim(). -/
def badStringField (v : Option Json) : Bool :=
  !(jOptTruthy v) || !(jisStr v) || strTrim (jstrOf v) == ""

/-- The auth sub-object checks of validateTool (part_005 lines 71-100). -/
def authErrors (dn : String) (a : Json) : List String :=
  match a with
  | .obj af =>
    let typeV := jget af "type"
    if !(jOptTruthy typeV) || !(jisStr typeV) ||
       !(VALID_AUTH_TYPES.contains (jstrOf typeV)) then
      ["Tool \"" ++ dn ++ "\" has invalid auth.type: " ++ jsonStringifyU typeV ++
       ". Must be one of: header, jwt."]
    else if jstrOf typeV = "header" then
      (if badStringField (jget af "name") then
        ["Tool \"" ++ dn ++ "\" auth.name is required for header auth type."] else [])
      ++ (let hasValue := jOptTruthy (jget af "value") && jisStr (jget af "value")
          let hasValueFromEnv := jOptTruthy (jget af "valueFromEnv") &&
            jisStr (jget af "valueFromEnv")
          if !hasValue && !hasValueFromEnv then
            ["Tool \"" ++ dn ++
             "\" auth requires either \"value\" or \"valueFromEnv\" for header auth type."]
          else [])
    else if jstrOf typeV = "jwt" then
      let hasToken := jOptTruthy (jget af "token") && jisStr (jget af "token") &&
        (strTrim (jstrOf (jget af "token")) != "")
      let hasTokenFromEnv := jOptTruthy (jget af "tokenFromEnv") &&
        jisStr (jget af "tokenFromEnv")
      if !hasToken && !hasTokenFromEnv then
        ["Tool \"" ++ dn ++
         "\" auth requires either \"token\" or \"tokenFromEnv\" for jwt auth type."]
      else []
    else []
  | _ => ["Tool \"" ++ dn ++ "\" has invalid auth. Must be an object if defined."]

/-- The violation list collected by the checks of validateTool before the
rateLimit check (part_005 lines 33-119).  The unknown-field scan only warns
in debug mode and never contributes an error, so it is not modelled.  The
validator never reads the authFrom field. -/
def validateToolBaseErrors (tool : JTool) : List String :=
  let dn := displayName tool
  (if badStringField (jget tool "name") then
    ["Tool has invalid name: " ++ jsonStringifyU (jget tool "name") ++
     ". Must be a non-empty string."] else [])
  ++ (if badStringField (jget tool "description") then
    ["Tool \"" ++ dn ++ "\" has invalid description: " ++
     jsonStringifyU (jget tool "description") ++ ". Must be a non-empty string."] else [])
  ++ (if badStringField (jget tool "url") then
    ["Tool \"" ++ dn ++ "\" has invalid url: " ++ jsonStringifyU (jget tool "url") ++
     ". Must be a non-empty string."] else [])
  ++ (match jget tool "method" with
      | none => []
      | some m =>
        if !(jisStr (some m)) || !(VALID_METHODS.contains (strToUpper (jstrOf (some m)))) then
          ["Tool \"" ++ dn ++ "\" has invalid method: " ++ jsonStringifyU (some m) ++
           ". Must be one of: GET, POST, PUT, PATCH, DELETE."]
        else [])
  ++ (match jget tool "input" with
      | none => []
      | some (.obj _) => []
      | some _ => ["Tool \"" ++ dn ++ "\" has invalid input schema. Must be an object if defined."])
  ++ (match jget tool "output" with
      | none => []
      | some (.obj _) => []
      | some _ => ["Tool \"" ++ dn ++ "\" has invalid output schema. Must be an object if defined."])
  ++ (match jget tool "auth" with
      | none => []
      | some a => authErrors dn a)
  ++ (match jget tool "timeout" with
      | none => []
      | some (.num n) =>
        if n ≤ 0 then
          ["Tool \"" ++ dn ++ "\" has invalid timeout: " ++ jsToString (.num n) ++
           ". Must be a positive number (milliseconds)."]
        else []
      | some j => ["Tool \"" ++ dn ++ "\" has invalid timeout: " ++ jsToString j ++
                   ". Must be a positive number (milliseconds)."])
  ++ (match jget tool "maxRetries" with
      | none => []
      | some (.num n) =>
        if n < 0 ∨ 10 < n then
          ["Tool \"" ++ dn ++ "\" has invalid maxRetries: " ++ jsToString (.num n) ++
           ". Must be 0-10."]
        else []
      | some j => ["Tool \"" ++ dn ++ "\" has invalid maxRetries: " ++ jsToString j ++
                   ". Must be 0-10."])
  ++ (match jget tool "retryDelay" with
      | none => []
      | some (.num n) =>
        if n < 0 then
          ["Tool \"" ++ dn ++ "\" has invalid retryDelay: " ++ jsToString (.num n) ++
           ". Must be a non-negative number (milliseconds)."]
        else []
      | some j => ["Tool \"" ++ dn ++ "\" has invalid retryDelay: " ++ jsToString j ++
                   ". Must be a non-negative number (milliseconds)."])
/-- The full check sequence of validateTool (part_005 lines 33-139),
including the rateLimit check at line 122: typeof tool.rateLimit !== object
rejects primitives, but null passes the typeof test and the subsequent
tool.rateLimit.requests access throws an uncaught TypeError (the error
branch; the engine-specific message text is abbreviated), discarding the
messages collected so far.  An array passes the typeof test and its missing
requests property is falsy, so it collects the validation error. -/
def validateToolErrors (tool : JTool) : Except String (List String) :=
  let dn := displayName tool
  match jget tool "rateLimit" with
  | none => .ok (validateToolBaseErrors tool)
  | some (.obj rf) =>
    .ok (validateToolBaseErrors tool ++
      (if !(jOptTruthy (jget rf "requests")) || !(jOptTruthy (jget rf "window")) then
        ["Tool \"" ++ dn ++
         "\" has invalid rateLimit. Must be \x7brequests: number, window: number\x7d."]
      else []))
  | some .null => .error "Cannot read properties of null (reading requests)"
  | some _ =>
    .ok (validateToolBaseErrors tool ++
      ["Tool \"" ++ dn ++
       "\" has invalid rateLimit. Must be \x7brequests: number, window: number\x7d."])

/-- validateTool (part_005 lines 33-159): true when no violation; on a
violation, a thrown McpError carrying the first message when throwOnError,
else false.  The uncaught TypeError of the rateLimit null access propagates
out of the function in both modes. -/
def validateTool (tool : JTool) (throwOnError : Bool) : Except String Bool :=
  match validateToolErrors tool with
  | .error m => .error m
  | .ok [] => .ok true
  | .ok (e :: _) => if throwOnError then .error e else .ok false

/-- The result object of validateManifest. -/
structure ManifestResult where
  success : Bool
  errors : List String
  toolCount : Nat
  toolNames : List String
deriving DecidableEq, Repr

/-- The fields of a tool entry (property access on a non-object value yields
undefined for every key). -/
def jfields : Json → JTool
  | .obj fs => fs
  | _ => []

/-- The per-entry accumulator of the validateManifest forEach. -/
structure DupAcc where
  idx : Nat
  errs : List String
  seen : List String
  dups : List String

/-- One iteration of the forEach in validateManifest (part_005 lines
186-204): validate the entry inside a try (the catch arm receives the
uncaught TypeError of a rateLimit null access), then track duplicate
names. -/
def dupStep (acc : DupAcc) (toolJ : Json) : DupAcc :=
  let fields := jfields toolJ
  let errs1 :=
    match validateTool fields false with
    | .ok true => acc.errs
    | .ok false => acc.errs ++ ["Tool at index " ++ Nat.repr acc.idx ++
                                ": Invalid tool configuration"]
    | .error m => acc.errs ++ ["Tool at index " ++ Nat.repr acc.idx ++ ": " ++ m]
  match jget fields "name" with
  | some (.str n) =>
    if n ≠ "" then
      if acc.seen.contains n then
        { idx := acc.idx + 1, errs := errs1, seen := acc.seen, dups := acc.dups ++ [n] }
      else
        { idx := acc.idx + 1, errs := errs1, seen := acc.seen ++ [n], dups := acc.dups }
    else { idx := acc.idx + 1, errs := errs1, seen := acc.seen, dups := acc.dups }
  | _ => { idx := acc.idx + 1, errs := errs1, seen := acc.seen, dups := acc.dups }

/-- validateManifest (part_005 lines 168-219).  The early returns carry only
success and errors in the source; toolCount 0 and an empty name list stand in
for the absent fields. -/
def validateManifest (config : JTool) : ManifestResult :=
  match jget config "tools" with
  | some (.arr tools) =>
    if tools.length = 0 then
      { success := false, errors := ["Field \"tools\": Array must contain at least one tool."]
        toolCount := 0, toolNames := [] }
    else
      let fin := tools.foldl dupStep { idx := 0, errs := [], seen := [], dups := [] }
      let dupErrors := fin.dups.map (fun n =>
        "Duplicate tool name found: \"" ++ n ++ "\". Tool names must be unique.")
      let errors := fin.errs ++ dupErrors
      { success := errors.isEmpty, errors := errors
        toolCount := tools.length, toolNames := fin.seen }
  | _ =>
    { success := false, errors := ["Field \"tools\": Missing or invalid. Must be an array."]
      toolCount := 0, toolNames := [] }

/- ===== theorems ===== -/

/-- Claim C7: for a tool configured with rateLimit requests 2 and window 1000,
isAllowed calls at times 0, 100 and 200 return true, true and false, and a
fourth call at 1100 returns true; on every check the stored timestamps are
first pruned to those strictly greater than now minus window, a rejected call
appends no timestamp, and an accepted call appends the current time. -/
theorem c7_rate_window_correctness :
    ((RateLimiter.isAllowed [] "t" ⟨2, 1000⟩ 0).1 = true ∧
     (RateLimiter.isAllowed [("t", [0])] "t" ⟨2, 1000⟩ 100).1 = true ∧
     (RateLimiter.isAllowed [("t", [0])] "t" ⟨2, 1000⟩ 100).2 = [("t", [0, 100])] ∧
     (RateLimiter.isAllowed [("t", [0, 100])] "t" ⟨2, 1000⟩ 200).1 = false ∧
     (RateLimiter.isAllowed [("t", [0, 100])] "t" ⟨2, 1000⟩ 200).2 = [("t", [0, 100])] ∧
     (RateLimiter.isAllowed [("t", [0, 100])] "t" ⟨2, 1000⟩ 1100).1 = true ∧
     (RateLimiter.isAllowed [("t", [0, 100])] "t" ⟨2, 1000⟩ 1100).2 = [("t", [1100])] ∧
     (RateLimiter.isAllowed [] "t" ⟨2, 1000⟩ 0).2 = [("t", [0])]) ∧
    (∀ (st : RateLimiter.RLState) (name : String)
       (cfg : RateLimiter.RateLimitConfig) (now : Int),
      cfg.requests ≠ 0 → cfg.window ≠ 0 →
      RateLimiter.isAllowed st name cfg now =
        (let pruned := ((RateLimiter.mapGet st name).getD []).filter
            (fun ts => decide (now - (cfg.window : Int) < ts))
         if cfg.requests ≤ pruned.length then (false, RateLimiter.mapSet st name pruned)
         else (true, RateLimiter.mapSet st name (pruned ++ [now])))) := by
  constructor
  · exact ⟨by decide, by decide, by decide, by decide, by decide, by decide, by decide,
      by decide⟩
  · intro st name cfg now hr hw
    unfold RateLimiter.isAllowed
    rw [if_neg (fun h => h.elim hr hw)]
    cases hmg : RateLimiter.mapGet st name with
    | none =>
      simp only [hmg, Option.isNone_none, if_true, RateLimiter.mapGet_mapSet,
        Option.getD_some, Option.getD_none, List.filter_nil,
        RateLimiter.mapSet_mapSet, List.nil_append]
    | some l =>
      simp only [hmg, Option.isNone_some, Bool.false_eq_true, if_false,
        Option.getD_some, RateLimiter.mapSet_mapSet]

/-- The executeCore path leaves the caller-supplied headers object unchanged:
every header statement targets the spread copy. -/
theorem executeCore_originalHeaders (tool : ToolConfig) (payload : Json)
    (oh : Headers) (env : String → Option String)
    (secrets : String → String → Option Auth) (net : Nat → FetchOutcome)
    (rl : RateLimiter.RLState) (log : HealthLog) :
    (executeCore tool payload oh env secrets net rl log).originalHeadersAfter = oh := by
  unfold executeCore
  simp only [buildHeaderState_orig]
  split <;> rfl

/-- Claim C10: executeTool never mutates the caller-supplied headers object:
all header manipulation (hop-by-hop stripping, Content-Type and Accept
forcing, auth overrides) happens on the shallow copy, so the originalHeaders
argument is unchanged when executeTool returns. -/
theorem c10_original_headers_unchanged (tool : ToolConfig) (payload : Json)
    (oh : Headers) (env : String → Option String)
    (secrets : String → String → Option Auth) (now : Int)
    (net : Nat → FetchOutcome) (rl : RateLimiter.RLState) (log : HealthLog) :
    (executeTool tool payload oh env secrets now net rl log).originalHeadersAfter = oh := by
  unfold executeTool
  cases h : tool.rateLimit with
  | none => exact executeCore_originalHeaders ..
  | some cfg =>
    by_cases hA : (RateLimiter.isAllowed rl tool.name cfg now).1
    · simp only [hA, if_true]
      exact executeCore_originalHeaders ..
    · simp only [hA, Bool.false_eq_true, if_false]

/-- The synthesized description is never the empty string. -/
theorem forward_description_ne_empty (g : String) :
    ("Forward to " ++ g) ≠ "" := by
  intro h
  have hl := congrArg String.length h
  rw [String.length_append] at hl
  have h1 : ("Forward to ").length = 11 := by decide
  have h2 : ("" : String).length = 0 := by decide
  omega

/-- Claim C8: for every entry of the form name plus webhook with no url
field, transformSimplifiedTool returns a tool whose url equals the webhook
value, method POST, a non-empty description, the empty-properties input
schema, the single-string-field result output schema and public defaulted to
false; applying transformSimplifiedTool again returns the result unchanged,
and the original entry object is never mutated. -/
theorem c8_shorthand_roundtrip (t : TTool) (w : String)
    (hurl : t.url = none) (hwh : t.webhook = some w) (hw : w ≠ "")
    (hd : t.description = none) (hm : t.method = none) (hi : t.input = none)
    (ho : t.output = none) (hp : t.publicFlag = none) :
    (transformSimplifiedTool t).url = some w ∧
    (transformSimplifiedTool t).method = some "POST" ∧
    (∃ d, (transformSimplifiedTool t).description = some d ∧ d ≠ "") ∧
    (transformSimplifiedTool t).input = some defaultInputSchema ∧
    (transformSimplifiedTool t).output = some defaultOutputSchema ∧
    (transformSimplifiedTool t).publicFlag = some (Json.bool false) ∧
    (transformSimplifiedTool t).webhook = none ∧
    transformSimplifiedTool (transformSimplifiedTool t) = transformSimplifiedTool t ∧
    (transformCall t).orig = t := by
  have hres : transformSimplifiedTool t =
      { t with url := some w, webhook := none
               description := some ("Forward to " ++ getWebhookDescription w)
               method := some "POST", input := some defaultInputSchema
               output := some defaultOutputSchema, publicFlag := some (Json.bool false) } := by
    simp [transformSimplifiedTool, transformCall, webhookTransformOps, onCur,
      hurl, hwh, hd, hm, hi, ho, hp, truthyOS, jOptTruthy, bne_iff_ne, hw]
  have hfar : ("Forward to " ++ getWebhookDescription w) ≠ "" :=
    forward_description_ne_empty _
  refine ⟨by rw [hres], by rw [hres], ⟨_, by rw [hres], hfar⟩, by rw [hres],
    by rw [hres], by rw [hres], by rw [hres], ?_, foldl_onCur_orig _ _⟩
  rw [hres]
  simp [transformSimplifiedTool, truthyOS, jOptTruthy, bne_iff_ne, hfar, hw,
    defaultInputSchema, defaultOutputSchema, jsTruthy]

/-- A concrete shorthand entry for evaluating the round-trip. -/
def ttoolW : TTool := { name := some "notify", webhook := some "https://example.com/hooks/send-email" }

/-- Witness for C8 at a concrete shorthand entry. -/
theorem c8_witness :
    (transformSimplifiedTool ttoolW).url = some "https://example.com/hooks/send-email" ∧
    (transformSimplifiedTool ttoolW).method = some "POST" ∧
    transformSimplifiedTool (transformSimplifiedTool ttoolW) = transformSimplifiedTool ttoolW :=
  have h := c8_shorthand_roundtrip ttoolW "https://example.com/hooks/send-email"
    rfl rfl (by decide) rfl rfl rfl rfl rfl
  ⟨h.1, h.2.1, h.2.2.2.2.2.2.2.1⟩

/-- A fetch that resolves to a response returns it immediately from the retry
loop, at any attempt and with any remaining budget. -/
theorem runRetry_resp (net : Nat → FetchOutcome) (mr rd attempt fuel : Nat)
    (r : HttpResp) (h : net attempt = .resp r) :
    runRetry net mr rd attempt fuel =
      { result := .ok r, attempts := attempt, sleeps := [] } := by
  cases fuel <;> simp [runRetry, h]

/-- A first-attempt rejection that is not retryable settles at once. -/
theorem runRetry_err_stop (net : Nat → FetchOutcome) (mr rd attempt fuel : Nat)
    (e : JsError) (h : net attempt = .err e) (hnr : isRetryableError e = false) :
    runRetry net mr rd attempt fuel =
      { result := .error e, attempts := attempt, sleeps := [] } := by
  cases fuel <;> simp [runRetry, h, hnr]

/-- Under persistently retryable rejections the loop runs to attempt
maxRetries, sleeping retryDelay * 2 ^ (attempt - 1) before each retry. -/
theorem runRetry_persistent (E : Nat → JsError)
    (hE : ∀ k, isRetryableError (E k) = true) (mr rd : Nat) :
    ∀ (fuel attempt : Nat), 1 ≤ attempt → attempt ≤ mr → mr - attempt ≤ fuel →
    runRetry (fun k => .err (E k)) mr rd attempt fuel =
      { result := .error (E mr), attempts := mr
        sleeps := (List.range' attempt (mr - attempt)).map (fun k => rd * 2 ^ (k - 1)) } := by
  intro fuel
  induction fuel with
  | zero =>
    intro attempt h1 h2 h3
    have heq : attempt = mr := by omega
    subst heq
    simp [runRetry]
  | succ f ih =>
    intro attempt h1 h2 h3
    by_cases hlt : attempt < mr
    · have hrw := ih (attempt + 1) (by omega) (by omega) (by omega)
      have hsz : mr - attempt = (mr - (attempt + 1)) + 1 := by omega
      simp [runRetry, hE, hlt, hrw, hsz, List.range'_succ]
    · have heq : attempt = mr := by omega
      subst heq
      simp [runRetry]

/-- The effective retry count is always at least one. -/
theorem effectiveMaxRetries_pos (t : ToolConfig) : 1 ≤ effectiveMaxRetries t := by
  unfold effectiveMaxRetries jsOrNat
  cases t.maxRetries with
  | none => decide
  | some n =>
    show 1 ≤ if n = 0 then 3 else n
    by_cases h : n = 0
    · rw [if_pos h]; omega
    · rw [if_neg h]; omega

/-- With no rate limit configured and no explicit method, executeTool reduces
to the HTTP phase: a POST to the configured url whose result is settled by
settleResponse over the retry trace. -/
theorem executeTool_post_reduction (tool : ToolConfig) (payload : Json) (oh : Headers)
    (env : String → Option String) (secrets : String → String → Option Auth)
    (now : Int) (net : Nat → FetchOutcome) (rl : RateLimiter.RLState) (log : HealthLog)
    (hrl : tool.rateLimit = none) (hm : tool.method = none) :
    executeTool tool payload oh env secrets now net rl log =
      { outcome := .ret (settleResponse tool.name log
          (executeWithRetry net (effectiveMaxRetries tool) (effectiveRetryDelay tool))).1
        rlState := rl
        healthLog := (settleResponse tool.name log
          (executeWithRetry net (effectiveMaxRetries tool) (effectiveRetryDelay tool))).2
        attempts := (executeWithRetry net (effectiveMaxRetries tool)
          (effectiveRetryDelay tool)).attempts
        sleeps := (executeWithRetry net (effectiveMaxRetries tool)
          (effectiveRetryDelay tool)).sleeps
        requestUrl := some tool.url
        sentHeaders := some (buildHeaderState (resolveAuth tool secrets) "POST" payload env
          { orig := oh, cur := oh }).cur
        sentBody := if isObjectPayload payload then some (Json.str (jsonStringifyLite payload))
                    else some payload
        originalHeadersAfter := oh
        timeoutMs := effectiveTimeout tool } := by
  have hmeth : resolvedMethod tool = "POST" := by simp [resolvedMethod, hm]
  unfold executeTool
  rw [hrl]
  unfold executeCore
  rw [hmeth]
  simp [buildHeaderState_orig]

/-- An empty process environment. -/
def envEmpty : String → Option String := fun _ => none

/-- An empty external secret store. -/
def secretsEmpty : String → String → Option Auth := fun _ _ => none

/-- Claim C3: when an HTTP response is actually received, the retry loop
returns it immediately (so a received response, 4xx or 5xx, is never
retried, and a retry can only follow a retryable exception); when the
received status is not 2xx the call settles as success false carrying the
real upstream status code and the parsed error body as details, after a
single attempt. -/
theorem c3_upstream_http_error :
    (∀ (net : Nat → FetchOutcome) (mr rd attempt fuel : Nat) (r : HttpResp),
      net attempt = .resp r →
      runRetry net mr rd attempt fuel =
        { result := .ok r, attempts := attempt, sleeps := [] }) ∧
    (∀ (tool : ToolConfig) (payload : Json) (oh : Headers)
       (env : String → Option String) (secrets : String → String → Option Auth)
       (now : Int) (net : Nat → FetchOutcome) (rl : RateLimiter.RLState)
       (log : HealthLog) (resp : HttpResp),
      tool.rateLimit = none → tool.method = none →
      net 1 = .resp resp → respOk resp = false →
      (executeTool tool payload oh env secrets now net rl log).outcome =
        .ret { success := false
               error := some ("HTTP " ++ Nat.repr resp.status ++ ": " ++ resp.statusText)
               status := some resp.status, details := some (errorBodyOf resp)
               tool := some tool.name } ∧
      (executeTool tool payload oh env secrets now net rl log).attempts = 1) := by
  constructor
  · intro net mr rd attempt fuel r h
    exact runRetry_resp net mr rd attempt fuel r h
  · intro tool payload oh env secrets now net rl log resp hrl hm hnet hok
    rw [executeTool_post_reduction tool payload oh env secrets now net rl log hrl hm]
    unfold executeWithRetry
    rw [runRetry_resp net _ _ 1 _ resp hnet]
    refine ⟨?_, rfl⟩
    simp [settleResponse, hok]

/-- The upstream 404 response used as a concrete input. -/
def respW404 : HttpResp :=
  { status := 404, statusText := "Not Found", contentType := some "application/json"
    jsonBody := some (.obj [("error", .str "nope")]), textBody := some "x" }

/-- A minimal tool with no optional configuration. -/
def toolPlain : ToolConfig := { name := "t", url := "https://api.example.com/x" }

/-- A network that always returns the 404 response. -/
def netResp404 : Nat → FetchOutcome := fun _ => .resp respW404

/-- Witness for C3: a concrete 404 with a JSON body settles unretried as a
success false result carrying status 404 and the parsed body. -/
theorem c3_witness :
    (executeTool toolPlain .null [] envEmpty secretsEmpty 0 netResp404 [] []).outcome =
      .ret { success := false, error := some "HTTP 404: Not Found", status := some 404
             details := some (.obj [("error", .str "nope")]), tool := some "t" } ∧
    (executeTool toolPlain .null [] envEmpty secretsEmpty 0 netResp404 [] []).attempts = 1 :=
  c3_upstream_http_error.2 toolPlain .null [] envEmpty secretsEmpty 0 netResp404 [] []
    respW404 rfl rfl rfl rfl

/-- A tool that explicitly configures zero retries and zero delay. -/
def toolRetryZero : ToolConfig :=
  { name := "t", url := "https://api.example.com/x", method := some "POST"
    maxRetries := some 0, retryDelay := some 0 }

/-- The abort error thrown when an attempt times out. -/
def abortErr : JsError := { name := "AbortError", message := "This operation was aborted" }

/-- A network on which every attempt times out. -/
def netAbort : Nat → FetchOutcome := fun _ => .err abortErr

/-- Counterexample to C4: with an explicit maxRetries of 0 and retryDelay of
0, executeTool performs three attempts and sleeps 1000 then 2000
milliseconds, the defaults, because the numeric or-defaults treat the
configured zeros as absent. -/
theorem c4_counterexample :
    (executeTool toolRetryZero .null [] envEmpty secretsEmpty 0 netAbort [] []).attempts = 3 ∧
    (executeTool toolRetryZero .null [] envEmpty secretsEmpty 0 netAbort [] []).sleeps =
      [1000, 2000] ∧
    toolRetryZero.maxRetries = some 0 ∧ toolRetryZero.retryDelay = some 0 :=
  ⟨rfl, rfl, rfl, rfl⟩

/-- Claim C4 as amended: the retry policy uses a configured nonzero
maxRetries and retryDelay, but substitutes the defaults (3 and 1000)
whenever the field is absent or an explicit 0; the HTTP call is attempted up
to the effective maxRetries times with inter-attempt delay
retryDelay * 2 ^ (attempt - 1). -/
theorem c4_amended_retry_policy :
    (∀ (t : ToolConfig) (n : Nat), t.maxRetries = some n → n ≠ 0 →
      effectiveMaxRetries t = n) ∧
    (∀ t : ToolConfig, t.maxRetries = some 0 ∨ t.maxRetries = none →
      effectiveMaxRetries t = 3) ∧
    (∀ (t : ToolConfig) (n : Nat), t.retryDelay = some n → n ≠ 0 →
      effectiveRetryDelay t = n) ∧
    (∀ t : ToolConfig, t.retryDelay = some 0 ∨ t.retryDelay = none →
      effectiveRetryDelay t = 1000) ∧
    (∀ (tool : ToolConfig) (payload : Json) (oh : Headers)
       (env : String → Option String) (secrets : String → String → Option Auth)
       (now : Int) (E : Nat → JsError) (rl : RateLimiter.RLState) (log : HealthLog),
      (∀ k, isRetryableError (E k) = true) → tool.rateLimit = none → tool.method = none →
      (executeTool tool payload oh env secrets now (fun k => .err (E k)) rl log).attempts =
        effectiveMaxRetries tool ∧
      (executeTool tool payload oh env secrets now (fun k => .err (E k)) rl log).sleeps =
        (List.range' 1 (effectiveMaxRetries tool - 1)).map
          (fun k => effectiveRetryDelay tool * 2 ^ (k - 1))) := by
  refine ⟨?_, ?_, ?_, ?_, ?_⟩
  · intro t n h hne
    simp [effectiveMaxRetries, jsOrNat, h, hne]
  · intro t h
    rcases h with h | h <;> simp [effectiveMaxRetries, jsOrNat, h]
  · intro t n h hne
    simp [effectiveRetryDelay, jsOrNat, h, hne]
  · intro t h
    rcases h with h | h <;> simp [effectiveRetryDelay, jsOrNat, h]
  · intro tool payload oh env secrets now E rl log hE hrl hm
    rw [executeTool_post_reduction tool payload oh env secrets now
      (fun k => .err (E k)) rl log hrl hm]
    unfold executeWithRetry
    rw [runRetry_persistent E hE (effectiveMaxRetries tool) (effectiveRetryDelay tool)
      (effectiveMaxRetries tool) 1 (Nat.le_refl 1) (effectiveMaxRetries_pos tool)
      (by omega)]
    exact ⟨rfl, rfl⟩

/-- A tool with a nonzero explicit retry configuration. -/
def toolRetry2 : ToolConfig :=
  { name := "t", url := "https://api.example.com/x", maxRetries := some 2
    retryDelay := some 500 }

/-- Witness for C4 as amended: nonzero configured values are used (a
configured 5 is effective 5, a configured 0 delay falls back to 1000), and a
tool with maxRetries 2 and retryDelay 500 performs two attempts with a
single 500 millisecond sleep under persistent timeouts. -/
theorem c4_witness :
    effectiveMaxRetries { name := "t", url := "u", maxRetries := some 5 } = 5 ∧
    effectiveRetryDelay { name := "t", url := "u", retryDelay := some 0 } = 1000 ∧
    (executeTool toolRetry2 .null [] envEmpty secretsEmpty 0
      (fun _ => .err abortErr) [] []).attempts = 2 ∧
    (executeTool toolRetry2 .null [] envEmpty secretsEmpty 0
      (fun _ => .err abortErr) [] []).sleeps = [500] :=
  ⟨c4_amended_retry_policy.1 _ 5 rfl (by decide),
   c4_amended_retry_policy.2.2.2.1 _ (Or.inl rfl),
   (c4_amended_retry_policy.2.2.2.2 toolRetry2 .null [] envEmpty secretsEmpty 0
     (fun _ => abortErr) [] [] (fun _ => rfl) rfl rfl).1,
   (c4_amended_retry_policy.2.2.2.2 toolRetry2 .null [] envEmpty secretsEmpty 0
     (fun _ => abortErr) [] [] (fun _ => rfl) rfl rfl).2⟩

/-- Claim C9: a 2xx response with a JSON content type and a parsed JSON body
is returned as success true with data equal to exactly the parsed object,
unmodified; in particular the binary envelope passes through untouched. -/
theorem c9_binary_envelope_passthrough (tool : ToolConfig) (payload : Json)
    (oh : Headers) (env : String → Option String)
    (secrets : String → String → Option Auth) (now : Int)
    (net : Nat → FetchOutcome) (rl : RateLimiter.RLState) (log : HealthLog)
    (resp : HttpResp) (j : Json)
    (hrl : tool.rateLimit = none) (hm : tool.method = none)
    (hnet : net 1 = .resp resp) (hst : resp.status = 200)
    (hct : resp.contentType = some "application/json")
    (hb : resp.jsonBody = some j) :
    (executeTool tool payload oh env secrets now net rl log).outcome =
      .ret { success := true, data := some j, status := some 200
             tool := some tool.name } := by
  rw [executeTool_post_reduction tool payload oh env secrets now net rl log hrl hm]
  unfold executeWithRetry
  rw [runRetry_resp net _ _ 1 _ resp hnet]
  have h1 : streamContentType (some "application/json") = false := by rfl
  have h2 : jsIncludes "application/json" "application/json" = true := by rfl
  simp [settleResponse, respOk, hst, hct, hb, h1, h2]

/-- The binary envelope body of the passthrough scenario. -/
def binEnvelope : Json :=
  .obj [("binary", .bool true), ("contentType", .str "image/png"), ("data", .str "Zm9v")]

/-- A 200 response whose JSON body is the binary envelope. -/
def respBin : HttpResp :=
  { status := 200, contentType := some "application/json"
    jsonBody := some binEnvelope, textBody := some "raw" }

/-- Witness for C9 at the exact envelope of the claim. -/
theorem c9_witness :
    (executeTool toolPlain .null [] envEmpty secretsEmpty 0
      (fun _ => .resp respBin) [] []).outcome =
      .ret { success := true, data := some binEnvelope, status := some 200
             tool := some "t" } :=
  c9_binary_envelope_passthrough toolPlain .null [] envEmpty secretsEmpty 0
    (fun _ => .resp respBin) [] [] respBin binEnvelope rfl rfl rfl rfl rfl rfl

/-- Witness for C7: the general pruning characterization evaluated at an
empty window state. -/
theorem c7_witness :
    RateLimiter.isAllowed [] "t" ⟨2, 1000⟩ 0 = (true, [("t", [0])]) := by
  have h := c7_rate_window_correctness.2 [] "t" ⟨2, 1000⟩ 0 (by decide) (by decide)
  rw [h]
  rfl

/-- A tool with a one-request-per-second rate limit. -/
def toolRL : ToolConfig :=
  { name := "t", url := "https://api.example.com/x", rateLimit := some ⟨1, 1000⟩ }

/-- Counterexample to C1: a rate limited call returns the 429 result but the
health log is untouched, so the result is not recorded via
HealthMonitor.recordExecution. -/
theorem c1_counterexample :
    (executeTool toolRL .null [] envEmpty secretsEmpty 10 netAbort [("t", [5])] []).healthLog
      = [] ∧
    (executeTool toolRL .null [] envEmpty secretsEmpty 10 netAbort [("t", [5])] []).outcome =
      .ret { success := false, error := some "Rate limit exceeded: 1/1 requests"
             status := some 429, tool := some "t"
             rateLimit := some { requests := 1, limit := 1, resetTime := some 1005 } } :=
  ⟨rfl, rfl⟩

/-- Claim C1 as amended: executeTool records the final result via
HealthMonitor.recordExecution only on the parsed 2xx success path and on the
caught-exception failure path; a rate limit rejection (status 429) and a
received non-2xx upstream response are returned without being recorded. -/
theorem c1_amended_health_recording :
    (∀ (tool : ToolConfig) (payload : Json) (oh : Headers)
       (env : String → Option String) (secrets : String → String → Option Auth)
       (now : Int) (net : Nat → FetchOutcome) (rl : RateLimiter.RLState)
       (log : HealthLog) (cfg : RateLimiter.RateLimitConfig),
      tool.rateLimit = some cfg →
      (RateLimiter.isAllowed rl tool.name cfg now).1 = false →
      (executeTool tool payload oh env secrets now net rl log).healthLog = log ∧
      ∃ r, (executeTool tool payload oh env secrets now net rl log).outcome = .ret r ∧
        r.status = some 429 ∧ r.success = false) ∧
    (∀ (tool : ToolConfig) (payload : Json) (oh : Headers)
       (env : String → Option String) (secrets : String → String → Option Auth)
       (now : Int) (net : Nat → FetchOutcome) (rl : RateLimiter.RLState)
       (log : HealthLog) (resp : HttpResp),
      tool.rateLimit = none → tool.method = none →
      net 1 = .resp resp → respOk resp = false →
      (executeTool tool payload oh env secrets now net rl log).healthLog = log) ∧
    (∀ (tool : ToolConfig) (payload : Json) (oh : Headers)
       (env : String → Option String) (secrets : String → String → Option Auth)
       (now : Int) (net : Nat → FetchOutcome) (rl : RateLimiter.RLState)
       (log : HealthLog) (resp : HttpResp) (j : Json),
      tool.rateLimit = none → tool.method = none →
      net 1 = .resp resp → respOk resp = true →
      resp.contentType = some "application/json" → resp.jsonBody = some j →
      ∃ r, (executeTool tool payload oh env secrets now net rl log).outcome = .ret r ∧
        r.success = true ∧
        (executeTool tool payload oh env secrets now net rl log).healthLog =
          log ++ [(tool.name, r)]) ∧
    (∀ (tool : ToolConfig) (payload : Json) (oh : Headers)
       (env : String → Option String) (secrets : String → String → Option Auth)
       (now : Int) (net : Nat → FetchOutcome) (rl : RateLimiter.RLState)
       (log : HealthLog) (e : JsError),
      tool.rateLimit = none → tool.method = none →
      net 1 = .err e → isRetryableError e = false →
      ∃ r, (executeTool tool payload oh env secrets now net rl log).outcome = .ret r ∧
        r.success = false ∧ r.errorType = some e.name ∧
        (executeTool tool payload oh env secrets now net rl log).healthLog =
          log ++ [(tool.name, r)]) := by
  refine ⟨?_, ?_, ?_, ?_⟩
  · intro tool payload oh env secrets now net rl log cfg h1 h2
    unfold executeTool
    rw [h1]
    dsimp only
    rw [if_neg (by rw [h2]; exact Bool.false_ne_true)]
    exact ⟨rfl, _, rfl, rfl, rfl⟩
  · intro tool payload oh env secrets now net rl log resp hrl hm hnet hok
    rw [executeTool_post_reduction tool payload oh env secrets now net rl log hrl hm]
    unfold executeWithRetry
    rw [runRetry_resp net _ _ 1 _ resp hnet]
    simp [settleResponse, hok]
  · intro tool payload oh env secrets now net rl log resp j hrl hm hnet hok hct hb
    rw [executeTool_post_reduction tool payload oh env secrets now net rl log hrl hm]
    unfold executeWithRetry
    rw [runRetry_resp net _ _ 1 _ resp hnet]
    have h1 : streamContentType (some "application/json") = false := by rfl
    have h2 : jsIncludes "application/json" "application/json" = true := by rfl
    have hs : settleResponse tool.name log { result := .ok resp, attempts := 1, sleeps := [] } =
        ({ success := true, data := some j, status := some resp.status, tool := some tool.name },
         log ++ [(tool.name, { success := true, data := some j, status := some resp.status
                               tool := some tool.name })]) := by
      simp [settleResponse, hok, hct, hb, h1, h2]
    rw [hs]
    exact ⟨_, rfl, rfl, rfl⟩
  · intro tool payload oh env secrets now net rl log e hrl hm hnet hnr
    rw [executeTool_post_reduction tool payload oh env secrets now net rl log hrl hm]
    unfold executeWithRetry
    rw [runRetry_err_stop net _ _ 1 _ e hnet hnr]
    have hs : settleResponse tool.name log { result := .error e, attempts := 1, sleeps := [] } =
        ({ success := false, error := some e.message
           status := some (if e.name = "AbortError" then 408 else 500)
           tool := some tool.name, errorType := some e.name, data := some .null },
         log ++ [(tool.name, { success := false, error := some e.message
                               status := some (if e.name = "AbortError" then 408 else 500)
                               tool := some tool.name, errorType := some e.name
                               data := some .null })]) := by
      simp [settleResponse]
    rw [hs]
    exact ⟨_, rfl, rfl, rfl, rfl⟩

/-- Witness for C1 as amended: a concrete rejected call leaves the log empty. -/
theorem c1_witness :
    (executeTool toolRL .null [] envEmpty secretsEmpty 100 netAbort [("t", [50])] []).healthLog
      = [] :=
  (c1_amended_health_recording.1 toolRL .null [] envEmpty secretsEmpty 100 netAbort
    [("t", [50])] [] ⟨1, 1000⟩ rfl rfl).1

/-- The only exception that can escape executeCore is the URL constructor
TypeError of the GET-with-query branch; every other failure is settled into
a returned result. -/
theorem executeCore_isThrown (tool : ToolConfig) (payload : Json) (oh : Headers)
    (env : String → Option String) (secrets : String → String → Option Auth)
    (net : Nat → FetchOutcome) (rl : RateLimiter.RLState) (log : HealthLog) :
    ((executeCore tool payload oh env secrets net rl log).outcome.isThrown = true) ↔
      (resolvedMethod tool = "GET" ∧ jsTruthy payload = true ∧
       0 < (jsKeys payload).length ∧ parseURL tool.url = none) := by
  unfold executeCore
  dsimp only
  by_cases hc : (resolvedMethod tool == "GET" && jsTruthy payload &&
      decide (0 < (jsKeys payload).length)) = true
  · rw [if_pos hc]
    simp only [Bool.and_eq_true, beq_iff_eq, decide_eq_true_eq] at hc
    cases hp : parseURL tool.url with
    | none =>
      dsimp only [ExecOutcome.isThrown]
      simp [hc.1.1, hc.1.2, hc.2]
    | some u =>
      dsimp only [ExecOutcome.isThrown]
      simp [hp]
  · rw [if_neg hc]
    dsimp only [ExecOutcome.isThrown]
    simp only [Bool.and_eq_true, beq_iff_eq, decide_eq_true_eq] at hc
    constructor
    · intro h; exact absurd h (by simp)
    · intro h; exact absurd ⟨⟨h.1, h.2.1⟩, h.2.2.1⟩ hc

/-- A GET tool whose target url does not parse. -/
def toolGetBad : ToolConfig := { name := "t", url := "not a url", method := some "GET" }

/-- Counterexample to C2: a malformed target URL on the GET-with-parameters
path escapes executeTool as a thrown TypeError instead of being returned as
a success false result. -/
theorem c2_counterexample :
    (executeTool toolGetBad (.obj [("a", .str "b")]) [] envEmpty secretsEmpty 0
      netAbort [] []).outcome =
      .thrown { name := "TypeError", message := "Invalid URL"
                code := some "ERR_INVALID_URL" } := rfl

/-- Claim C2 as amended: every transport failure raised during the HTTP
phase is caught and returned as a result, and the one ordinary-failure path
that escapes executeTool as an exception is exactly an admitted GET call
whose truthy, non-empty-keyed payload forces URL construction on a target
url that does not parse. -/
theorem c2_amended_throw_characterization (tool : ToolConfig) (payload : Json)
    (oh : Headers) (env : String → Option String)
    (secrets : String → String → Option Auth) (now : Int)
    (net : Nat → FetchOutcome) (rl : RateLimiter.RLState) (log : HealthLog) :
    ((executeTool tool payload oh env secrets now net rl log).outcome.isThrown = true) ↔
      ((tool.rateLimit = none ∨ ∃ cfg, tool.rateLimit = some cfg ∧
          (RateLimiter.isAllowed rl tool.name cfg now).1 = true) ∧
       resolvedMethod tool = "GET" ∧ jsTruthy payload = true ∧
       0 < (jsKeys payload).length ∧ parseURL tool.url = none) := by
  unfold executeTool
  cases hrl : tool.rateLimit with
  | none =>
    dsimp only
    rw [executeCore_isThrown]
    exact ⟨fun h => ⟨Or.inl rfl, h⟩, fun h => h.2⟩
  | some cfg =>
    dsimp only
    by_cases hA : (RateLimiter.isAllowed rl tool.name cfg now).1 = true
    · rw [if_pos hA, executeCore_isThrown]
      refine ⟨fun h => ⟨Or.inr ⟨cfg, rfl, hA⟩, h⟩, fun h => h.2⟩
    · rw [if_neg hA]
      dsimp only [ExecOutcome.isThrown]
      constructor
      · intro h; exact absurd h (by simp)
      · intro h
        rcases h.1 with h1 | ⟨cfg2, heq, hA2⟩
        · exact absurd h1 (by simp)
        · cases heq
          exact absurd hA2 hA

/-- Witness for C2 as amended: the characterization fires at the concrete
malformed-URL GET call. -/
theorem c2_witness :
    (executeTool toolGetBad (.obj [("a", .str "b")]) [] envEmpty secretsEmpty 0
      netAbort [] []).outcome.isThrown = true :=
  (c2_amended_throw_characterization toolGetBad (.obj [("a", .str "b")]) [] envEmpty
    secretsEmpty 0 netAbort [] []).mpr ⟨Or.inl rfl, rfl, rfl, by decide, rfl⟩

/-- A fully valid tool that carries both auth and authFrom. -/
def toolBothAuth : JTool :=
  [("name", .str "t"), ("description", .str "d"), ("url", .str "https://e.com/h"),
   ("auth", .obj [("type", .str "header"), ("name", .str "X-Key"), ("value", .str "v")]),
   ("authFrom", .obj [("user", .str "u")])]

/-- Counterexample to C5: a tool with both auth and authFrom present passes
validateTool in both modes; no mutual-exclusion check exists. -/
theorem c5_counterexample :
    validateTool toolBothAuth false = .ok true ∧
    validateTool toolBothAuth true = .ok true := ⟨rfl, rfl⟩

/-- True unless the rateLimit field is present and null, the one input shape
on which the rateLimit check of validateTool throws instead of judging. -/
def rateLimitFieldNotNull (fields : JTool) : Bool :=
  match jget fields "rateLimit" with
  | some .null => false
  | _ => true

/-- Claim C5 as amended: validateTool never reads the authFrom field, so a
tool with both auth and authFrom validates exactly as it would without
authFrom (in particular an otherwise valid tool with both passes); every
tool whose auth object has type header with neither value nor valueFromEnv
present, and whose rateLimit field is not null, fails validation: false
without throwOnError, a raised error with it; a tool whose rateLimit field
is null makes validateTool throw an uncaught TypeError in both modes before
any verdict. -/
theorem c5_amended_auth_validation :
    (∀ (fields : JTool) (j : Json),
      validateToolErrors (("authFrom", j) :: fields) = validateToolErrors fields) ∧
    (∀ (fields af : JTool),
      jget fields "auth" = some (.obj af) →
      jget af "type" = some (.str "header") →
      jget af "value" = none → jget af "valueFromEnv" = none →
      rateLimitFieldNotNull fields = true →
      validateTool fields false = .ok false ∧
      ∃ m, validateTool fields true = .error m) ∧
    (∀ fields : JTool, jget fields "rateLimit" = some Json.null →
      ∃ m, validateTool fields false = .error m ∧
           validateTool fields true = .error m) := by
  refine ⟨?_, ?_, ?_⟩
  · intro fields j
    rfl
  · intro fields af hauth htype hv hvfe hnn
    have hmem : ("Tool \"" ++ displayName fields ++
        "\" auth requires either \"value\" or \"valueFromEnv\" for header auth type.")
        ∈ validateToolBaseErrors fields := by
      unfold validateToolBaseErrors authErrors
      simp only [hauth, htype, hv, hvfe]
      simp [jOptTruthy, jsTruthy, jisStr, jstrOf, VALID_AUTH_TYPES, List.mem_append]
    have hok : ∃ errs, validateToolErrors fields = .ok errs ∧
        ("Tool \"" ++ displayName fields ++
         "\" auth requires either \"value\" or \"valueFromEnv\" for header auth type.")
        ∈ errs := by
      unfold validateToolErrors
      cases hrl : jget fields "rateLimit" with
      | none => exact ⟨_, rfl, hmem⟩
      | some j0 =>
        cases j0 with
        | null => simp [rateLimitFieldNotNull, hrl] at hnn
        | obj rf => exact ⟨_, rfl, List.mem_append_left _ hmem⟩
        | bool b => exact ⟨_, rfl, List.mem_append_left _ hmem⟩
        | num m0 => exact ⟨_, rfl, List.mem_append_left _ hmem⟩
        | str s => exact ⟨_, rfl, List.mem_append_left _ hmem⟩
        | arr xs => exact ⟨_, rfl, List.mem_append_left _ hmem⟩
    obtain ⟨errs, heq, hm⟩ := hok
    obtain ⟨e, l, hcons⟩ : ∃ e l, errs = e :: l := by
      cases errs with
      | nil => exact absurd hm (List.not_mem_nil _)
      | cons e l => exact ⟨e, l, rfl⟩
    subst hcons
    unfold validateTool
    rw [heq]
    exact ⟨rfl, e, rfl⟩
  · intro fields hnull
    refine ⟨"Cannot read properties of null (reading requests)", ?_, ?_⟩ <;>
      (unfold validateTool validateToolErrors; rw [hnull])

/-- A header-auth tool that carries neither value nor valueFromEnv. -/
def toolHdrNoVal : JTool :=
  [("name", .str "t"), ("description", .str "d"), ("url", .str "https://e.com/h"),
   ("auth", .obj [("type", .str "header"), ("name", .str "X-Key")])]

/-- Witness for C5 as amended, at a concrete header tool with no credential
material. -/
theorem c5_witness :
    validateTool toolHdrNoVal false = .ok false :=
  (c5_amended_auth_validation.2.1 toolHdrNoVal
    [("type", .str "header"), ("name", .str "X-Key")] rfl rfl rfl rfl rfl).1

/-- A minimal valid tool named x. -/
def toolX : JTool :=
  [("name", .str "x"), ("description", .str "d"), ("url", .str "https://e.com/h")]

/-- Counterexample to C6: a manifest with exactly two tools both named x
fails, but the returned errors hold a single duplicate message, not a report
of both occurrences. -/
theorem c6_counterexample :
    (validateManifest [("tools", .arr [.obj toolX, .obj toolX])]).success = false ∧
    (validateManifest [("tools", .arr [.obj toolX, .obj toolX])]).errors =
      ["Duplicate tool name found: \"x\". Tool names must be unique."] := ⟨rfl, rfl⟩

/-- Claim C6 as amended: validateManifest fails on duplicate names
(case-sensitive) and reports one duplicate error per occurrence after the
first of each name: two tools sharing a name produce exactly one duplicate
error, three produce two. -/
theorem c6_amended_duplicate_reporting :
    (∀ (f1 f2 : JTool) (n : String),
      validateToolErrors f1 = .ok [] → validateToolErrors f2 = .ok [] →
      jget f1 "name" = some (.str n) → jget f2 "name" = some (.str n) → n ≠ "" →
      validateManifest [("tools", .arr [.obj f1, .obj f2])] =
        { success := false
          errors := ["Duplicate tool name found: \"" ++ n ++ "\". Tool names must be unique."]
          toolCount := 2, toolNames := [n] }) ∧
    (∀ (f1 f2 f3 : JTool) (n : String),
      validateToolErrors f1 = .ok [] → validateToolErrors f2 = .ok [] →
      validateToolErrors f3 = .ok [] →
      jget f1 "name" = some (.str n) → jget f2 "name" = some (.str n) →
      jget f3 "name" = some (.str n) → n ≠ "" →
      (validateManifest [("tools", .arr [.obj f1, .obj f2, .obj f3])]).errors =
        ["Duplicate tool name found: \"" ++ n ++ "\". Tool names must be unique.",
         "Duplicate tool name found: \"" ++ n ++ "\". Tool names must be unique."]) := by
  constructor
  · intro f1 f2 n h1 h2 hn1 hn2 hne
    simp [validateManifest, jget, dupStep, jfields, validateTool, h1, h2, hn1, hn2, hne]
  · intro f1 f2 f3 n h1 h2 h3 hn1 hn2 hn3 hne
    simp [validateManifest, jget, dupStep, jfields, validateTool, h1, h2, h3, hn1, hn2,
      hn3, hne]

/-- Witness for C6 as amended at the concrete duplicate manifest. -/
theorem c6_witness :
    validateManifest [("tools", .arr [.obj toolX, .obj toolX])] =
      { success := false
        errors := ["Duplicate tool name found: \"x\". Tool names must be unique."]
        toolCount := 2, toolNames := ["x"] } :=
  c6_amended_duplicate_reporting.1 toolX toolX "x" rfl rfl rfl rfl (by decide)
